import Mathlib

/-!
Verification development for `reg_tests/lib/errorPlotting.py` of the openfast
regression-test tooling.

Modelling conventions:
* Python floats are modelled as exact rationals (`ℚ`).  The code only compares
  norm values with `==` and `max`, which on (non-NaN) IEEE doubles coincide
  with the exact order on the rational values they denote.
* Python exceptions (`IndexError` on `l[i]`, `ValueError` from `max([])` and
  `list.index`, `NameError` on an unbound variable) are modelled with
  `Except PyErr`; an `Except.error` result means the Python call raises and
  writes no complete report.
* The emitted HTML is modelled at two levels: exact strings (via `render`
  functions that reproduce the source's format strings character for
  character) and, for the combined summary, a structured list of `Chunk`s
  whose concatenated rendering is the emitted body.  The structured level is
  what the placement/count theorems are stated on.
-/

attribute [local semireducible] Rat.mul Rat.inv Rat.add Rat.sub Rat.ofScientific

/-- Python exception kinds raised by the code under scrutiny. -/
inductive PyErr where
  | indexError (msg : String)
  | valueError (msg : String)
  | nameError (msg : String)
  deriving DecidableEq, Repr

/-- Python list subscription `l[i]`: raises `IndexError` out of range. -/
def pyIndex {α : Type} (l : List α) (i : ℕ) : Except PyErr α :=
  match l[i]? with
  | some x => Except.ok x
  | none => Except.error (PyErr.indexError "list index out of range")

/-- Python builtin `max(l)`: the greatest element of a non-empty list
(left fold, as CPython iterates), `ValueError` on an empty one. -/
def pyMax (l : List ℚ) : Except PyErr ℚ :=
  match l with
  | [] => Except.error (PyErr.valueError "max() arg is an empty sequence")
  | x :: xs => Except.ok (xs.foldl max x)

/-- Python `list.index(x)` (used at `errorPlotting.py:121`): the first index
holding `x`, `none` modelling the `ValueError` when `x` is absent. -/
def pyListIndex : List String → String → Option ℕ
  | [], _ => none
  | a :: rest, x =>
    if a = x then some 0 else (pyListIndex rest x).map (· + 1)

/-- A `<td>` table cell: either plain or carrying a CSS class
(`cell-highlight` / `cell-warning` in the source). -/
inductive Cell where
  | plain (content : String)
  | styled (cls : String) (content : String)
  deriving DecidableEq, Repr

/-- The text content of a cell (the formatted value). -/
def Cell.content : Cell → String
  | Cell.plain s => s
  | Cell.styled _ s => s

/-- Whether the cell carries the `cell-highlight` class. -/
def Cell.isHighlight : Cell → Bool
  | Cell.styled cls _ => cls = "cell-highlight"
  | Cell.plain _ => false

/-- Whether the cell carries the `cell-warning` class. -/
def Cell.isWarning : Cell → Bool
  | Cell.styled cls _ => cls = "cell-warning"
  | Cell.plain _ => false

/-- Exact rendering of a cell, matching lines 206-214 / 253-256 of the
source (`'          <td class="...">...</td>'` plus newline). -/
def renderCell (c : Cell) : String :=
  match c with
  | Cell.plain s => "          <td>" ++ s ++ "</td>" ++ "\n"
  | Cell.styled cls s => "          <td class=\"" ++ cls ++ "\">" ++ s ++ "</td>" ++ "\n"

/-! ## The `'{0:0.4e}'` format

Python's `'{0:0.4e}'.format(x)` prints `x` in scientific notation with one
digit before the decimal point and exactly four after it, rounding the
significand to the nearest (ties to even), with a sign-carrying, two-digit
minimum exponent. -/

/-- Round to the nearest integer, ties to even (IEEE/Python rounding used by
`format`). -/
def roundHalfEven (q : ℚ) : ℤ :=
  let f := q.floor
  if q - f < 1/2 then f
  else if 1/2 < q - f then f + 1
  else if f % 2 = 0 then f else f + 1

/-- Number of decimal digits of a natural number (1 for 0). -/
def digitsLen (n : ℕ) : ℕ :=
  (Nat.toDigits 10 n).length

/-- The decimal exponent of a positive rational: the unique `e` with
`10^e ≤ a < 10^(e+1)`. -/
def decExp (a : ℚ) : ℤ :=
  if 1 ≤ a then (digitsLen a.floor.toNat - 1 : ℕ)
  else -(digitsLen ((a⁻¹.ceil).toNat - 1) : ℕ)

/-- The four fractional digits of the significand `n` (a 5-digit number). -/
def mantFrac (n : ℕ) : String :=
  String.mk [Nat.digitChar (n / 1000 % 10), Nat.digitChar (n / 100 % 10),
    Nat.digitChar (n / 10 % 10), Nat.digitChar (n % 10)]

/-- The exponent suffix: sign plus at-least-two-digit magnitude. -/
def expStr (e : ℤ) : String :=
  (if e < 0 then "-" else "+") ++
    (if e.natAbs < 10 then "0" ++ String.singleton (Nat.digitChar e.natAbs)
     else Nat.repr e.natAbs)

/-- Assemble `sign` `d.dddd` `e` `expo` from a 5-digit significand `n`. -/
def sciString (sign : String) (n : ℕ) (expo : String) : String :=
  sign ++ String.singleton (Nat.digitChar (n / 10000 % 10)) ++ "." ++
    mantFrac (n % 10000) ++ "e" ++ expo

/-- Model of Python `'{0:0.4e}'.format q` on exact rationals. -/
def fmtE4 (q : ℚ) : String :=
  if q = 0 then sciString "" 0 "+00"
  else
    let sign := if q < 0 then "-" else ""
    let a := |q|
    let e0 := decExp a
    let n0 := (roundHalfEven (a / 10 ^ e0 * 10 ^ 4)).toNat
    let n := if n0 = 100000 then 10000 else n0
    let e := if n0 = 100000 then e0 + 1 else e0
    sciString sign n (expStr e)

/-! ## HTML head and tail (`_htmlHead`, `_htmlTail`, lines 149-166)

`_htmlHead` receives a `title` argument but never uses it: the `<title>`
element is the hard-coded string `5MW_ITIBarge_DLL_WTurb_WavesIrr Summary`. -/

/-- Model of `_htmlHead` (lines 149-162), character for character. -/
def htmlHead (title : String) : String :=
  "<!DOCTYPE html>" ++ "\n"
  ++ "<html>" ++ "\n"
  ++ "<head>" ++ "\n"
  ++ "  <title>5MW_ITIBarge_DLL_WTurb_WavesIrr Summary</title>" ++ "\n"
  ++ "  <script src=\"https://code.jquery.com/jquery-3.3.1.slim.min.js\" integrity=\"sha384-q8i/X+965DzO0rT7abK41JStQIAqVgRVzpbzo5smXKp4YfRvH+8abtTE1Pi6jizo\" crossorigin=\"anonymous\"></script>" ++ "\n"
  ++ "  <script src=\"https://cdnjs.cloudflare.com/ajax/libs/popper.js/1.14.7/umd/popper.min.js\" integrity=\"sha384-UO2eT0CpHqdSJQ6hJty5KVphtPhzWj9WO1clHTMGa3JDZwrnQq4sF86dIHNDz0W1\" crossorigin=\"anonymous\"></script>" ++ "\n"
  ++ "  <script src=\"https://stackpath.bootstrapcdn.com/bootstrap/4.3.1/js/bootstrap.min.js\" integrity=\"sha384-JjSmVgyd0p3pXB1rRibZUAYoIIy6OrQ6VrjIEaFf/nJGzIxFDsf4x0xIM+B07jRM\" crossorigin=\"anonymous\"></script>" ++ "\n"
  ++ "  <link rel=\"stylesheet\" href=\"https://stackpath.bootstrapcdn.com/bootstrap/4.3.1/css/bootstrap.min.css\" integrity=\"sha384-ggOyR0iXCbMQv3Xipma34MD+dH/1fQ784/j6cY/iJTQUOhcWr7x9JvoRxT2MZw1T\" crossorigin=\"anonymous\">" ++ "\n"
  ++ "  <style media=\"screen\" type=\"text/css\">    .cell-warning \x7b      background-color: #FF6666;    \x7d    .cell-highlight \x7b      background-color: #E5E589;    \x7d  </style>" ++ "\n"
  ++ "  <link rel=\"stylesheet\" href=\"https://cdnjs.cloudflare.com/ajax/libs/font-awesome/4.7.0/css/font-awesome.min.css\">\n"
  ++ "  <script src=\"https://cdn.plot.ly/plotly-latest.min.js\"></script>\n"
  ++ "</head>" ++ "\n"

/-- Model of `_htmlTail` (lines 164-166). -/
def htmlTail : String :=
  "</html>" ++ "\n"

/-- `_htmlHead(caseName)` call at line 187 (`initializePlotDirectory`). -/
def initPlotDirectoryHead (caseName : String) : String :=
  htmlHead caseName

/-- `_htmlHead("Regression Test Summary")` call at line 237
(`exportResultsSummary`). -/
def resultsSummaryHead : String :=
  htmlHead "Regression Test Summary"

/-- `_htmlHead(case + " Summary")` call at line 273 (`exportCaseSummary`). -/
def caseSummaryHead (case : String) : String :=
  htmlHead (case ++ " Summary")

/-- `_htmlHead(case + " Summary")` call at line 321 (`exportCombinedSummary`). -/
def combinedSummaryHead (case : String) : String :=
  htmlHead (case ++ " Summary")

/-! ## Norm summary tables (`initializePlotDirectory`, `exportCaseSummary`)

Both builders compute the column maxima with Python `max` and mark a numeric
cell with `class="cell-highlight"` exactly when its value `==` the column
maximum (lines 196-215 and 283-302; the row-emitting loops are identical). -/

/-- The channel link `'<a href="#{0}">{0}</a>'.format(plot)` (line 195). -/
def anchorHtml (plot : String) : String :=
  "<a href=\"#" ++ plot ++ "\">" ++ plot ++ "</a>"

/-- The comprehension `[(fmt(plot), relativeNorm[i], maxNorm[i]) for i, plot
in enumerate(plotList)]` of lines 195/331, with the per-plot format string
applied by the consumer; raises `IndexError` when a norm list is shorter
than `plotList`. -/
def dataTriples : List String → List ℚ → List ℚ → ℕ →
    Except PyErr (List (String × ℚ × ℚ))
  | [], _, _, _ => Except.ok []
  | plot :: rest, relativeNorm, maxNorm, i =>
    match pyIndex relativeNorm i with
    | Except.error e => Except.error e
    | Except.ok r =>
      match pyIndex maxNorm i with
      | Except.error e => Except.error e
      | Except.ok m =>
        match dataTriples rest relativeNorm maxNorm (i + 1) with
        | Except.error e => Except.error e
        | Except.ok tail => Except.ok ((plot, r, m) :: tail)

/-- One emitted table row: channel column content plus the two norm cells. -/
structure TableRow where
  channel : String
  relCell : Cell
  maxCell : Cell
  deriving DecidableEq, Repr

/-- The row body of lines 200-215 / 287-302: each norm cell is highlighted
iff its value `==` the respective column maximum. -/
def normRow (d : String × ℚ × ℚ) (maxRelNorm maxMaxNorm : ℚ) : TableRow :=
  { channel := d.1
    relCell :=
      if d.2.1 = maxRelNorm then Cell.styled "cell-highlight" (fmtE4 d.2.1)
      else Cell.plain (fmtE4 d.2.1)
    maxCell :=
      if d.2.2 = maxMaxNorm then Cell.styled "cell-highlight" (fmtE4 d.2.2)
      else Cell.plain (fmtE4 d.2.2) }

/-- The table rows built by `initializePlotDirectory` (lines 195-215):
`data` zips `plotList` with the norm lists, the maxima are taken over the
whole norm lists (`max(relativeNorm)`, `max(maxNorm)`, lines 196-197). -/
def initPlotTableRows (plotList : List String) (relativeNorm maxNorm : List ℚ) :
    Except PyErr (List TableRow) :=
  match dataTriples plotList relativeNorm maxNorm 0 with
  | Except.error e => Except.error e
  | Except.ok data =>
    match pyMax relativeNorm with
    | Except.error e => Except.error e
    | Except.ok maxRelNorm =>
      match pyMax maxNorm with
      | Except.error e => Except.error e
      | Except.ok maxMaxNorm =>
        Except.ok (data.map fun d =>
          normRow (anchorHtml d.1, d.2.1, d.2.2) maxRelNorm maxMaxNorm)

/-- The table rows built by `exportCaseSummary` (lines 282-302): `data` is
the `results` list of `(channel, relNorm, maxNorm)` triples itself, the
maxima are taken over the two projected columns (lines 283-284). -/
def exportCaseSummaryRows (results : List (String × ℚ × ℚ)) :
    Except PyErr (List TableRow) :=
  match pyMax (results.map fun r => r.2.1) with
  | Except.error e => Except.error e
  | Except.ok maxRelNorm =>
    match pyMax (results.map fun r => r.2.2) with
    | Except.error e => Except.error e
    | Except.ok maxMaxNorm =>
      Except.ok (results.map fun d => normRow d maxRelNorm maxMaxNorm)

/-- Exact rendering of one row (lines 201-215): `<tr>`, the 1-based `#`
header cell, the channel cell, the two norm cells, `</tr>`. -/
def renderRow (i : ℕ) (row : TableRow) : String :=
  "        <tr>" ++ "\n"
  ++ "          <th scope=\"row\">" ++ Nat.repr (i + 1) ++ "</th>" ++ "\n"
  ++ "          <td>" ++ row.channel ++ "</td>" ++ "\n"
  ++ renderCell row.relCell
  ++ renderCell row.maxCell
  ++ "        </tr>" ++ "\n"

/-! ## Cross-case summary (`exportResultsSummary`, lines 233-268) -/

/-- The case link `'<a href="{0}/{0}.html">{0}</a>'.format(r[0])`
(line 244). -/
def caseLink (name : String) : String :=
  "<a href=\"" ++ name ++ "/" ++ name ++ ".html\">" ++ name ++ "</a>"

/-- The pass/fail label cell (lines 252-256): `cell-warning` exactly when
the label `== "FAIL"`. -/
def labelCell (label : String) : Cell :=
  if label = "FAIL" then Cell.styled "cell-warning" label
  else Cell.plain label

/-- The rows of `exportResultsSummary`: one `(case link, label cell)` pair
per result, in order (lines 244-258). -/
def exportResultsSummaryRows (results : List (String × String)) :
    List (String × Cell) :=
  results.map fun r => (caseLink r.1, labelCell r.2)

/-! ## Combined summary (`exportCombinedSummary`, lines 314-385)

The emitted `<body>` is modelled as a list of `Chunk`s whose concatenated
rendering is the string the source accumulates in `body`.  The structured
constructors tag the three data-dependent pieces: the per-channel collapse
button (from `data_p`, line 331/350), the collapse container opening tag
carrying the channel id (line 374), and the embedded chart fragment after
its `px -> %` replacement (line 376). -/

/-- Non-overlapping left-to-right replacement on character lists (the
semantics of Python `str.replace`), structurally recursive on a fuel that
bounds the input length. -/
def replaceFuel (pat rep : List Char) : ℕ → List Char → List Char
  | _, [] => []
  | 0, l => l
  | fuel + 1, c :: rest =>
    if pat.isPrefixOf (c :: rest) ∧ 1 ≤ pat.length then
      rep ++ replaceFuel pat rep fuel (List.drop (pat.length - 1) rest)
    else c :: replaceFuel pat rep fuel rest

/-- Model of Python `s.replace(pat, rep)` for a non-empty pattern. -/
def pyReplace (s pat rep : String) : String :=
  String.mk (replaceFuel pat.toList rep.toList s.toList.length s.toList)

/-- A piece of the combined-summary body. -/
inductive Chunk where
  | raw (s : String)
  | button (plot : String)
  | containerOpen (cid : String)
  | fragment (s : String)
  deriving DecidableEq, Repr

/-- The collapse button markup of line 331, with `{0}` filled by `plot`. -/
def buttonHtml (plot : String) : String :=
  "<button type=\"button\" class=\"btn btn-info btn-lg\" data-toggle=\"collapse\" data-target=\"#"
    ++ plot ++ "\">" ++ plot
    ++ " <strong class=\"fa fa-angle-double-down\"></strong></button>"

/-- The collapse container opening tag of line 374, with `{}` filled by the
channel name `d[0]`. -/
def containerOpenHtml (cid : String) : String :=
  "          <div id=\"" ++ cid
    ++ "\" class=\"collapse multi-collapse\" style=\"border-style: solid; height: 500px;\">" ++ "\n"

/-- Rendering a chunk back to the exact emitted string. -/
def Chunk.render : Chunk → String
  | Chunk.raw s => s
  | Chunk.button plot => buttonHtml plot
  | Chunk.containerOpen cid => containerOpenHtml cid
  | Chunk.fragment s => s

/-- Concatenated rendering of a chunk list. -/
def renderChunks (chunks : List Chunk) : String :=
  chunks.foldl (fun acc c => acc ++ c.render) ""

/-- The fixed chunks emitted before the button grid (lines 334-337). -/
def combinedHeaderChunks : List Chunk :=
  [Chunk.raw ("  <div class=\"container\">" ++ "\n"),
   Chunk.raw ("  <button class=\"btn btn-primary\" type=\"button\" data-toggle=\"collapse\" data-target=\".multi-collapse\">Expand/Collapse All Graphs <strong class=\"fa fa-angle-double-down\"></strong></button>" ++ "\n"),
   Chunk.raw ("  <br><br>" ++ "\n"),
   Chunk.raw ("    <div>" ++ "\n")]

/-- The button grid loop (lines 342-354, `ncols = 5`): iterates over
`data_s` with index `i`, reads `data_p[i]` (IndexError when `data_p` is
shorter), opens a `row` div when `i % 5 == 0` and closes it when
`i % 5 == 4`.  Returns the chunks plus the final value of the Python loop
variable `current_col` (`none` when the loop body never ran). -/
def buttonLoop (data_p : List (String × ℚ × ℚ)) :
    List (String × ℚ × ℚ) → ℕ → Except PyErr (List Chunk × Option ℕ)
  | [], _ => Except.ok ([], none)
  | _d :: rest, i =>
    match pyIndex data_p i with
    | Except.error e => Except.error e
    | Except.ok p =>
      match buttonLoop data_p rest (i + 1) with
      | Except.error e => Except.error e
      | Except.ok (restChunks, restCol) =>
        let current_col := i % 5
        let pre := if current_col = 0 then [Chunk.raw ("      <div class=\"row\">" ++ "\n")] else []
        let post := if current_col = 4 then [Chunk.raw ("      </div>" ++ "\n")] else []
        Except.ok
          (pre ++ [Chunk.raw ("        <div class=\"col-sm\">" ++ "\n"),
                   Chunk.button p.1,
                   Chunk.raw "        </div>"] ++ post ++ restChunks,
           some (restCol.getD current_col))

/-- The padding loop `for i in range(current_col, ncols-1)` (lines 356-358):
emits one empty `col-sm` div per remaining column. -/
def paddingChunks (current_col : ℕ) : List Chunk :=
  (List.replicate (4 - current_col)
    [Chunk.raw ("      <div class=\"col-sm\">" ++ "\n"),
     Chunk.raw ("      </div>" ++ "\n")]).flatten

/-- The container loop (lines 366-377): for each `d` in `data_s` (index
`i`), emits the fixed `col-sm` opener, the collapse container tagged with
the channel name `d[0]`, the fragment `div_string_mat[i]` with every `px`
replaced by `%` (IndexError when the fragment list is shorter), and the
closing tag. -/
def containerLoop (div_string_mat : List String) :
    List (String × ℚ × ℚ) → ℕ → Except PyErr (List Chunk)
  | [], _ => Except.ok []
  | d :: rest, i =>
    match pyIndex div_string_mat i with
    | Except.error e => Except.error e
    | Except.ok frag =>
      match containerLoop div_string_mat rest (i + 1) with
      | Except.error e => Except.error e
      | Except.ok restChunks =>
        Except.ok
          ([Chunk.raw ("        <div class=\"col-sm\" style=\"padding: 0px; height: 500px;\">" ++ "\n"),
            Chunk.containerOpen d.1,
            Chunk.fragment (pyReplace frag "px" "%"),
            Chunk.raw ("          </div>" ++ "\n")] ++ restChunks)

/-- The whole `body` string of `exportCombinedSummary` (lines 323-380) as a
chunk list: `data_s = results` (line 328), `data_p` from `plotList` and the
norm lists (line 331), then header, button grid, padding (which raises
`NameError` when `results` is empty, because the loop variable
`current_col` was never bound, line 356), grid close, and container loop. -/
def exportCombinedSummaryBody (results : List (String × ℚ × ℚ))
    (plotList : List String) (relativeNorm maxNorm : List ℚ)
    (div_string_mat : List String) : Except PyErr (List Chunk) :=
  let data_s := results
  match dataTriples plotList relativeNorm maxNorm 0 with
  | Except.error e => Except.error e
  | Except.ok data_p =>
    match buttonLoop data_p data_s 0 with
    | Except.error e => Except.error e
    | Except.ok (buttonChunks, current_col) =>
      match current_col with
      | none => Except.error (PyErr.nameError "name current_col is not defined")
      | some c =>
        match containerLoop div_string_mat data_s 0 with
        | Except.error e => Except.error e
        | Except.ok contChunks =>
          Except.ok
            (combinedHeaderChunks ++ buttonChunks ++ paddingChunks c
              ++ [Chunk.raw ("    </div>" ++ "\n"), Chunk.raw ("  <br>" ++ "\n")]
              ++ contChunks ++ [Chunk.raw ("  </div>" ++ "\n")])

/-- The channel names targeted by the collapse buttons, in emission order. -/
def buttonTargetsOf (chunks : List Chunk) : List String :=
  chunks.filterMap fun c =>
    match c with
    | Chunk.button plot => some plot
    | _ => none

/-- The identifiers of the collapse chart containers, in emission order. -/
def containerIdsOf (chunks : List Chunk) : List String :=
  chunks.filterMap fun c =>
    match c with
    | Chunk.containerOpen cid => some cid
    | _ => none

/-- The chart fragments emitted into the report, in emission order. -/
def fragmentsOf (chunks : List Chunk) : List String :=
  chunks.filterMap fun c =>
    match c with
    | Chunk.fragment s => some s
    | _ => none

/-- Pairs each container identifier with the fragment emitted directly
inside it (the fragment chunk follows the container-opening chunk). -/
def containerFragmentPairs : List Chunk → List (String × String)
  | Chunk.containerOpen cid :: Chunk.fragment s :: rest =>
    (cid, s) :: containerFragmentPairs rest
  | _ :: rest => containerFragmentPairs rest
  | [] => []

/-- Number of occurrences of a (non-empty) pattern in a string, counted at
every position (enough to witness absence). -/
def occurrencesAux : List Char → List Char → ℕ
  | [], _ => 0
  | c :: rest, pat =>
    (if pat.isPrefixOf (c :: rest) then 1 else 0) + occurrencesAux rest pat

/-- Occurrence count of `pat` in `s`. -/
def occurrences (s pat : String) : ℕ :=
  occurrencesAux s.toList pat.toList

/-! ## Channel resolution and the raster path (`plotOpenfastError`)

Lines 115-147: after parsing, the channel index is resolved with
`info1['attribute_names'].index(attribute)` inside a `try`; on the
`ValueError` the function exits via `rtl.exitWithError` before any chart is
rendered.  In raster mode the figure is then drawn, saved and closed, in
that order, with no `try`/`finally` around the save. -/

/-- The parsed-solution metadata returned by `load_output`. -/
structure SolutionInfo where
  attribute_names : List String
  attribute_units : List String
  deriving DecidableEq, Repr

/-- Outcome of `plotOpenfastError` up to chart rendering: either the
resolution succeeded and rendering proceeds with the resolved column index,
or the function aborted through `rtl.exitWithError` (lines 120-123) and no
rendering happens. -/
inductive PlotOutcome where
  | rendered (channel : ℕ)
  | aborted (msg : String)
  deriving DecidableEq, Repr

/-- The channel-resolution step of `plotOpenfastError` (lines 120-123);
`attr` is the `attribute` argument of the source. -/
def plotOpenfastErrorOutcome (info1 : SolutionInfo) (attr : String) :
    PlotOutcome :=
  match pyListIndex info1.attribute_names attr with
  | some channel => PlotOutcome.rendered channel
  | none =>
    PlotOutcome.aborted
      ("Error: Invalid channel name--\x27" ++ attr ++ "\x27 is not in list")

/-- The statements of the raster branch, lines 140-147, in source order:
render the figure, ensure the plot directory, save the figure
(`_savePlot`, line 112-113), close the figure. -/
inductive RasterStmt where
  | plotErrorCall
  | validateDirCall
  | savePlotCall
  | closeCall
  deriving DecidableEq, Repr

/-- The raster branch body (lines 140-147). -/
def rasterBody : List RasterStmt :=
  [RasterStmt.plotErrorCall, RasterStmt.validateDirCall,
   RasterStmt.savePlotCall, RasterStmt.closeCall]

/-- Sequential execution with Python exception semantics: statements run in
order until one raises; there is no `try`/`finally`, so nothing after the
raising statement runs.  Returns the executed statements and whether an
exception escaped. -/
def execUntilRaise (raises : RasterStmt → Bool) :
    List RasterStmt → List RasterStmt × Bool
  | [] => ([], false)
  | s :: rest =>
    if raises s then ([s], true)
    else
      let (executed, raised) := execUntilRaise raises rest
      (s :: executed, raised)

/-- Whether the raster path reaches `plt.close()` (line 147) when the given
statements raise. -/
def rasterReachesClose (raises : RasterStmt → Bool) : Bool :=
  (execUntilRaise raises rasterBody).1.contains RasterStmt.closeCall

/-- Chunks of the button grid and padding: fixed markup or a button, never
a chart container or fragment. -/
def Chunk.isGridChunk : Chunk → Bool
  | Chunk.raw _ => true
  | Chunk.button _ => true
  | Chunk.containerOpen _ => false
  | Chunk.fragment _ => false

/-- Number of digits in the mantissa of a scientific-notation string (the
digit characters before the `e`). -/
def mantissaDigitCount (s : String) : ℕ :=
  ((s.toList.takeWhile fun c => c ≠ 'e').filter Char.isDigit).length

/-! ## Supporting lemmas -/

lemma le_foldl_max (xs : List ℚ) (a : ℚ) : a ≤ xs.foldl max a := by
  induction xs generalizing a with
  | nil => exact le_refl a
  | cons x xs ih => exact le_trans (le_max_left a x) (ih (max a x))

lemma mem_le_foldl_max (xs : List ℚ) (a y : ℚ) (h : y ∈ xs) :
    y ≤ xs.foldl max a := by
  induction xs generalizing a with
  | nil => cases h
  | cons x xs ih =>
    rcases List.mem_cons.mp h with h | h
    · subst h
      exact le_trans (le_max_right a y) (le_foldl_max xs (max a y))
    · exact ih (max a x) h

lemma foldl_max_mem (xs : List ℚ) (a : ℚ) : xs.foldl max a ∈ a :: xs := by
  induction xs generalizing a with
  | nil => exact List.mem_singleton.mpr rfl
  | cons x xs ih =>
    have h := ih (max a x)
    rcases List.mem_cons.mp h with h | h
    · rcases max_choice a x with hm | hm
      · exact List.mem_cons.mpr (Or.inl (h.trans hm))
      · exact List.mem_cons.mpr (Or.inr (List.mem_cons.mpr (Or.inl (h.trans hm))))
    · exact List.mem_cons.mpr (Or.inr (List.mem_cons.mpr (Or.inr h)))

/-- `pyMax` returns a greatest element of the list. -/
lemma pyMax_spec (l : List ℚ) (m : ℚ) (h : pyMax l = Except.ok m) :
    m ∈ l ∧ ∀ y ∈ l, y ≤ m := by
  cases l with
  | nil => cases h
  | cons x xs =>
    have hm : m = xs.foldl max x := by
      simpa [pyMax] using h.symm
    subst hm
    refine ⟨foldl_max_mem xs x, ?_⟩
    intro y hy
    rcases List.mem_cons.mp hy with hy | hy
    · subst hy; exact le_foldl_max xs y
    · exact mem_le_foldl_max xs x y hy

/-- A member of the list equals the `pyMax` value iff it is an upper bound
of the list. -/
lemma eq_pyMax_iff (l : List ℚ) (v m : ℚ) (hv : v ∈ l)
    (h : pyMax l = Except.ok m) : v = m ↔ ∀ y ∈ l, y ≤ v := by
  obtain ⟨hmem, hub⟩ := pyMax_spec l m h
  constructor
  · intro hvm; subst hvm; exact hub
  · intro hb; exact le_antisymm (hub v hv) (hb m hmem)

lemma pyListIndex_of_mem (l : List String) (x : String) (h : x ∈ l) :
    ∃ c, pyListIndex l x = some c := by
  induction l with
  | nil => cases h
  | cons a rest ih =>
    by_cases hax : a = x
    · exact ⟨0, by simp [pyListIndex, hax]⟩
    · rcases List.mem_cons.mp h with h | h
      · exact absurd h.symm hax
      · obtain ⟨c, hc⟩ := ih h
        exact ⟨c + 1, by simp [pyListIndex, hax, hc]⟩

lemma pyListIndex_of_not_mem (l : List String) (x : String) (h : x ∉ l) :
    pyListIndex l x = none := by
  induction l with
  | nil => rfl
  | cons a rest ih =>
    have hax : a ≠ x := fun hax => h (hax ▸ List.mem_cons_self a rest)
    have hrest : x ∉ rest := fun hr => h (List.mem_cons.mpr (Or.inr hr))
    simp [pyListIndex, hax, ih hrest]

/-- `pyListIndex` returns the first index holding the value. -/
lemma pyListIndex_spec (l : List String) (x : String) (c : ℕ)
    (h : pyListIndex l x = some c) :
    c < l.length ∧ l.getD c "" = x ∧ ∀ j, j < c → l.getD j "" ≠ x := by
  induction l generalizing c with
  | nil => cases h
  | cons a rest ih =>
    by_cases hax : a = x
    · have hc : c = 0 := by
        have := h
        simp [pyListIndex, hax] at this
        omega
      subst hc
      exact ⟨by simp, by simpa using hax, fun j hj => absurd hj (by omega)⟩
    · have h' : ∃ c', pyListIndex rest x = some c' ∧ c = c' + 1 := by
        have := h
        simp [pyListIndex, hax] at this
        obtain ⟨c', hc', hcc⟩ := this
        exact ⟨c', hc', hcc.symm⟩
      obtain ⟨c', hc', rfl⟩ := h'
      obtain ⟨hlt, hget, hfirst⟩ := ih c' hc'
      refine ⟨by simpa using Nat.succ_lt_succ hlt, by simpa using hget, ?_⟩
      intro j hj
      cases j with
      | zero => simpa using hax
      | succ j' =>
        have : j' < c' := by omega
        simpa using hfirst j' this

/-! ## Claim theorems -/

/-- C3: in `exportResultsSummary` a row's label cell carries the
`cell-warning` class if and only if the row's label string is exactly
`"FAIL"` (case-sensitive full-string match); the rows are exactly one
`(case link, label cell)` pair per result, in input order. -/
theorem results_summary_warning_iff_FAIL :
    (∀ results : List (String × String),
      exportResultsSummaryRows results =
        results.map fun r => (caseLink r.1, labelCell r.2))
    ∧ ∀ label : String, (labelCell label).isWarning = (label == "FAIL") := by
  constructor
  · intro results; rfl
  · intro label
    by_cases h : label = "FAIL"
    · simp [labelCell, h, Cell.isWarning]
    · simp [labelCell, h, Cell.isWarning]

/-- C4: `plotOpenfastError` resolves a requested attribute name to the
exact (first) index of that name in the candidate solution's
`attribute_names`; when the name is present the outcome is `rendered` at
that index, and when it is absent the function aborts through the error
path before any rendering. -/
theorem plotOpenfastError_channel_resolution (info1 : SolutionInfo)
    (attr : String) :
    (∀ c, pyListIndex info1.attribute_names attr = some c →
      plotOpenfastErrorOutcome info1 attr = PlotOutcome.rendered c ∧
      c < info1.attribute_names.length ∧
      info1.attribute_names.getD c "" = attr ∧
      ∀ j, j < c → info1.attribute_names.getD j "" ≠ attr)
    ∧ (attr ∈ info1.attribute_names →
        ∃ c, pyListIndex info1.attribute_names attr = some c)
    ∧ (attr ∉ info1.attribute_names →
        plotOpenfastErrorOutcome info1 attr =
          PlotOutcome.aborted
            ("Error: Invalid channel name--\x27" ++ attr ++ "\x27 is not in list")) := by
  refine ⟨?_, ?_, ?_⟩
  · intro c hc
    obtain ⟨hlt, hget, hfirst⟩ := pyListIndex_spec _ _ _ hc
    exact ⟨by simp [plotOpenfastErrorOutcome, hc], hlt, hget, hfirst⟩
  · intro hmem
    exact pyListIndex_of_mem _ _ hmem
  · intro hnm
    simp [plotOpenfastErrorOutcome, pyListIndex_of_not_mem _ _ hnm]

/-- Witness for C4 at a concrete parsed-solution header: `"GenPwr"` resolves
to index 2, the absent `"Foo"` aborts with the error message. -/
theorem plotOpenfastError_channel_resolution_witness :
    plotOpenfastErrorOutcome
        ⟨["Time", "Wind1VelX", "GenPwr"], ["(s)", "(m/s)", "(kW)"]⟩ "GenPwr" =
      PlotOutcome.rendered 2
    ∧ plotOpenfastErrorOutcome
        ⟨["Time", "Wind1VelX", "GenPwr"], ["(s)", "(m/s)", "(kW)"]⟩ "Foo" =
      PlotOutcome.aborted "Error: Invalid channel name--\x27Foo\x27 is not in list" := by
  constructor
  · exact ((plotOpenfastError_channel_resolution
      ⟨["Time", "Wind1VelX", "GenPwr"], ["(s)", "(m/s)", "(kW)"]⟩ "GenPwr").1
        2 (by decide)).1
  · exact (plotOpenfastError_channel_resolution
      ⟨["Time", "Wind1VelX", "GenPwr"], ["(s)", "(m/s)", "(kW)"]⟩ "Foo").2.2
        (by decide)

/-- C6: the raster path of `plotOpenfastError` runs `_savePlot` and
`plt.close()` in sequence with no `try`/`finally` (lines 145-147), so when
saving raises, `plt.close()` is never reached — the drawing context is
released only on the non-raising path, contradicting the requirement that
release happen on every path. -/
theorem raster_close_skipped_when_save_raises :
    rasterReachesClose (fun s => s == RasterStmt.savePlotCall) = false
    ∧ rasterReachesClose (fun _ => false) = true := by decide

set_option maxRecDepth 40000 in
/-- C8: the `<title>` element emitted by `_htmlHead` is the constant
`5MW_ITIBarge_DLL_WTurb_WavesIrr Summary` regardless of the `title`
argument, and all four page builders take their head from `_htmlHead`, so
every generated page shares that page title. -/
theorem htmlHead_title_constant :
    (∀ title : String, htmlHead title = htmlHead "")
    ∧ occurrences (htmlHead "")
        "<title>5MW_ITIBarge_DLL_WTurb_WavesIrr Summary</title>" = 1
    ∧ (∀ c, initPlotDirectoryHead c = htmlHead "")
    ∧ resultsSummaryHead = htmlHead ""
    ∧ (∀ c, caseSummaryHead c = htmlHead "")
    ∧ (∀ c, combinedSummaryHead c = htmlHead "") := by
  exact ⟨fun _ => rfl, by rfl, fun _ => rfl, rfl, fun _ => rfl, fun _ => rfl⟩

/-- C10: with an empty `results` list `exportCombinedSummary` always raises
(when the `data_p` comprehension survives, the column-padding loop reads the
never-bound loop variable `current_col`, a `NameError`), and
`initializePlotDirectory` with empty norm lists raises `ValueError` from
`max()` on an empty sequence; neither writes a complete report. -/
theorem empty_input_errors :
    (∀ (plotList : List String) (relativeNorm maxNorm : List ℚ)
        (div_string_mat : List String),
      ∃ e, exportCombinedSummaryBody [] plotList relativeNorm maxNorm
          div_string_mat = Except.error e)
    ∧ exportCombinedSummaryBody [] [] [] [] [] =
        Except.error (PyErr.nameError "name current_col is not defined")
    ∧ initPlotTableRows [] [] [] =
        Except.error (PyErr.valueError "max() arg is an empty sequence") := by
  refine ⟨?_, by rfl, by rfl⟩
  intro plotList relativeNorm maxNorm div_string_mat
  cases h : dataTriples plotList relativeNorm maxNorm 0 with
  | error e => exact ⟨e, by simp [exportCombinedSummaryBody, h]⟩
  | ok dp =>
    exact ⟨PyErr.nameError "name current_col is not defined",
      by simp [exportCombinedSummaryBody, h, buttonLoop]⟩

lemma pyMax_ok_of_ne_nil (l : List ℚ) (h : l ≠ []) :
    ∃ m, pyMax l = Except.ok m := by
  cases l with
  | nil => exact absurd rfl h
  | cons x xs => exact ⟨xs.foldl max x, rfl⟩

/-- Successful evaluation of the comprehension of lines 195/331: when both
norm lists are long enough, it returns the position-wise zip. -/
lemma dataTriples_ok (plotList : List String) (relativeNorm maxNorm : List ℚ)
    (i : ℕ) (hrel : i + plotList.length ≤ relativeNorm.length)
    (hmax : i + plotList.length ≤ maxNorm.length) :
    dataTriples plotList relativeNorm maxNorm i =
      Except.ok (plotList.zip ((relativeNorm.drop i).zip (maxNorm.drop i))) := by
  induction plotList generalizing i with
  | nil => rfl
  | cons p rest ih =>
    have hi : i < relativeNorm.length := by
      simp only [List.length_cons] at hrel; omega
    have hi' : i < maxNorm.length := by
      simp only [List.length_cons] at hmax; omega
    have h1 : pyIndex relativeNorm i = Except.ok relativeNorm[i] := by
      simp [pyIndex, List.getElem?_eq_getElem hi]
    have h2 : pyIndex maxNorm i = Except.ok maxNorm[i] := by
      simp [pyIndex, List.getElem?_eq_getElem hi']
    have hih := ih (i + 1)
      (by simp only [List.length_cons] at hrel; omega)
      (by simp only [List.length_cons] at hmax; omega)
    rw [List.drop_eq_getElem_cons hi, List.drop_eq_getElem_cons hi']
    simp only [dataTriples, h1, h2, hih, List.zip_cons_cons]

lemma normRow_relCell_isHighlight (d : String × ℚ × ℚ) (mr mm : ℚ) :
    ((normRow d mr mm).relCell.isHighlight = true) ↔ d.2.1 = mr := by
  by_cases h : d.2.1 = mr <;> simp [normRow, Cell.isHighlight, h]

lemma normRow_maxCell_isHighlight (d : String × ℚ × ℚ) (mr mm : ℚ) :
    ((normRow d mr mm).maxCell.isHighlight = true) ↔ d.2.2 = mm := by
  by_cases h : d.2.2 = mm <;> simp [normRow, Cell.isHighlight, h]

/-- C1: in the norm summary tables of `initializePlotDirectory` and
`exportCaseSummary`, a relative-norm (resp. max-norm) cell carries the
`cell-highlight` class iff its value equals the maximum of that column over
the whole list — equivalently, iff no entry of the column exceeds it — so
under duplicate maxima every tied row is highlighted and no non-maximal row
is. -/
theorem norm_summary_highlight_iff_column_max
    (plotList : List String) (relativeNorm maxNorm : List ℚ)
    (results : List (String × ℚ × ℚ))
    (hrel : relativeNorm.length = plotList.length)
    (hmax : maxNorm.length = plotList.length)
    (hpl : plotList ≠ []) (hres : results ≠ []) :
    (∃ rows, initPlotTableRows plotList relativeNorm maxNorm = Except.ok rows ∧
      rows.length = plotList.length ∧
      ∀ i, i < rows.length →
        (((rows.getD i ⟨"", Cell.plain "", Cell.plain ""⟩).relCell.isHighlight = true) ↔
          ∀ y ∈ relativeNorm, y ≤ relativeNorm.getD i 0) ∧
        (((rows.getD i ⟨"", Cell.plain "", Cell.plain ""⟩).maxCell.isHighlight = true) ↔
          ∀ y ∈ maxNorm, y ≤ maxNorm.getD i 0))
    ∧ (∃ rows, exportCaseSummaryRows results = Except.ok rows ∧
      rows.length = results.length ∧
      ∀ i, i < rows.length →
        (((rows.getD i ⟨"", Cell.plain "", Cell.plain ""⟩).relCell.isHighlight = true) ↔
          ∀ y ∈ results.map (fun r => r.2.1), y ≤ (results.getD i ("", 0, 0)).2.1) ∧
        (((rows.getD i ⟨"", Cell.plain "", Cell.plain ""⟩).maxCell.isHighlight = true) ↔
          ∀ y ∈ results.map (fun r => r.2.2), y ≤ (results.getD i ("", 0, 0)).2.2)) := by
  have hplpos : 0 < plotList.length := List.length_pos.mpr hpl
  constructor
  · have hrelne : relativeNorm ≠ [] := by
      intro h
      rw [h] at hrel
      simp only [List.length_nil] at hrel
      omega
    have hmaxne : maxNorm ≠ [] := by
      intro h
      rw [h] at hmax
      simp only [List.length_nil] at hmax
      omega
    obtain ⟨m1, hm1⟩ := pyMax_ok_of_ne_nil relativeNorm hrelne
    obtain ⟨m2, hm2⟩ := pyMax_ok_of_ne_nil maxNorm hmaxne
    have hdt := dataTriples_ok plotList relativeNorm maxNorm 0
      (by omega) (by omega)
    rw [List.drop_zero, List.drop_zero] at hdt
    have hok : initPlotTableRows plotList relativeNorm maxNorm =
        Except.ok ((plotList.zip (relativeNorm.zip maxNorm)).map fun d =>
          normRow (anchorHtml d.1, d.2.1, d.2.2) m1 m2) := by
      simp only [initPlotTableRows, hdt, hm1, hm2]
    have hlen : ((plotList.zip (relativeNorm.zip maxNorm)).map fun d =>
        normRow (anchorHtml d.1, d.2.1, d.2.2) m1 m2).length = plotList.length := by
      simp [List.length_zip, hrel, hmax]
    refine ⟨_, hok, hlen, ?_⟩
    intro i hi
    rw [hlen] at hi
    have hirel : i < relativeNorm.length := by omega
    have himax : i < maxNorm.length := by omega
    have hgetD : ((plotList.zip (relativeNorm.zip maxNorm)).map fun d =>
          normRow (anchorHtml d.1, d.2.1, d.2.2) m1 m2).getD i
            ⟨"", Cell.plain "", Cell.plain ""⟩
        = normRow (anchorHtml plotList[i], relativeNorm[i], maxNorm[i]) m1 m2 := by
      rw [List.getD_eq_getElem _ _ (by rw [hlen]; exact hi)]
      simp [List.getElem_zip]
    rw [hgetD, List.getD_eq_getElem relativeNorm 0 hirel,
      List.getD_eq_getElem maxNorm 0 himax]
    constructor
    · rw [normRow_relCell_isHighlight]
      exact eq_pyMax_iff relativeNorm _ m1 (List.getElem_mem hirel) hm1
    · rw [normRow_maxCell_isHighlight]
      exact eq_pyMax_iff maxNorm _ m2 (List.getElem_mem himax) hm2
  · have h1ne : results.map (fun r => r.2.1) ≠ [] := fun h =>
      hres (by simpa using h)
    have h2ne : results.map (fun r => r.2.2) ≠ [] := fun h =>
      hres (by simpa using h)
    obtain ⟨n1, hn1⟩ := pyMax_ok_of_ne_nil _ h1ne
    obtain ⟨n2, hn2⟩ := pyMax_ok_of_ne_nil _ h2ne
    have hok : exportCaseSummaryRows results =
        Except.ok (results.map fun d => normRow d n1 n2) := by
      simp only [exportCaseSummaryRows, hn1, hn2]
    refine ⟨_, hok, by simp, ?_⟩
    intro i hi
    simp only [List.length_map] at hi
    have hgetD : (results.map fun d => normRow d n1 n2).getD i
          ⟨"", Cell.plain "", Cell.plain ""⟩
        = normRow results[i] n1 n2 := by
      rw [List.getD_eq_getElem _ _ (by simpa using hi)]
      simp
    rw [hgetD, List.getD_eq_getElem results ("", 0, 0) hi]
    constructor
    · rw [normRow_relCell_isHighlight]
      exact eq_pyMax_iff _ _ n1
        (List.mem_map_of_mem _ (List.getElem_mem hi)) hn1
    · rw [normRow_maxCell_isHighlight]
      exact eq_pyMax_iff _ _ n2
        (List.mem_map_of_mem _ (List.getElem_mem hi)) hn2

/-- Witness for C1 at the spec's example: channels `Wind1VelX`/`GenPwr`
with relative norms `1.2e-3`/`9.9e-3` and a tied max norm `4.5e-2`. -/
theorem norm_summary_highlight_iff_column_max_witness :
    (∃ rows, initPlotTableRows ["Wind1VelX", "GenPwr"]
        [3/2500, 99/10000] [9/200, 9/200] = Except.ok rows ∧
      rows.length = (["Wind1VelX", "GenPwr"] : List String).length ∧
      ∀ i, i < rows.length →
        (((rows.getD i ⟨"", Cell.plain "", Cell.plain ""⟩).relCell.isHighlight = true) ↔
          ∀ y ∈ ([3/2500, 99/10000] : List ℚ), y ≤ ([3/2500, 99/10000] : List ℚ).getD i 0) ∧
        (((rows.getD i ⟨"", Cell.plain "", Cell.plain ""⟩).maxCell.isHighlight = true) ↔
          ∀ y ∈ ([9/200, 9/200] : List ℚ), y ≤ ([9/200, 9/200] : List ℚ).getD i 0))
    ∧ (∃ rows, exportCaseSummaryRows
        [("Wind1VelX", 3/2500, 9/200), ("GenPwr", 99/10000, 9/200)] = Except.ok rows ∧
      rows.length = ([("Wind1VelX", 3/2500, 9/200), ("GenPwr", 99/10000, 9/200)]
        : List (String × ℚ × ℚ)).length ∧
      ∀ i, i < rows.length →
        (((rows.getD i ⟨"", Cell.plain "", Cell.plain ""⟩).relCell.isHighlight = true) ↔
          ∀ y ∈ ([("Wind1VelX", 3/2500, 9/200), ("GenPwr", 99/10000, 9/200)]
              : List (String × ℚ × ℚ)).map (fun r => r.2.1),
            y ≤ (([("Wind1VelX", 3/2500, 9/200), ("GenPwr", 99/10000, 9/200)]
              : List (String × ℚ × ℚ)).getD i ("", 0, 0)).2.1) ∧
        (((rows.getD i ⟨"", Cell.plain "", Cell.plain ""⟩).maxCell.isHighlight = true) ↔
          ∀ y ∈ ([("Wind1VelX", 3/2500, 9/200), ("GenPwr", 99/10000, 9/200)]
              : List (String × ℚ × ℚ)).map (fun r => r.2.2),
            y ≤ (([("Wind1VelX", 3/2500, 9/200), ("GenPwr", 99/10000, 9/200)]
              : List (String × ℚ × ℚ)).getD i ("", 0, 0)).2.2)) :=
  norm_summary_highlight_iff_column_max
    ["Wind1VelX", "GenPwr"] [3/2500, 99/10000] [9/200, 9/200]
    [("Wind1VelX", 3/2500, 9/200), ("GenPwr", 99/10000, 9/200)]
    (by decide) (by decide) (by decide) (by decide)

lemma mem_ite_raw {c : Chunk} {b : Prop} [Decidable b] {x : String}
    (h : c ∈ (if b then [Chunk.raw x] else [])) : c = Chunk.raw x := by
  split at h
  · simpa using h
  · simp at h

lemma buttonTargetsOf_ite_raw (b : Prop) [Decidable b] (x : String) :
    buttonTargetsOf (if b then [Chunk.raw x] else []) = [] := by
  split <;> simp [buttonTargetsOf]

lemma cfp_raw (s : String) (l : List Chunk) :
    containerFragmentPairs (Chunk.raw s :: l) = containerFragmentPairs l := rfl

lemma cfp_button (p : String) (l : List Chunk) :
    containerFragmentPairs (Chunk.button p :: l) = containerFragmentPairs l := rfl

/-- Grid chunks (fixed markup and buttons) contribute nothing to the
container/fragment pairing. -/
lemma cfp_grid_append (l₁ l₂ : List Chunk)
    (h : ∀ c ∈ l₁, c.isGridChunk = true) :
    containerFragmentPairs (l₁ ++ l₂) = containerFragmentPairs l₂ := by
  induction l₁ with
  | nil => rfl
  | cons c l₁ ih =>
    have hc := h c (List.mem_cons_self c l₁)
    have hrest : ∀ c ∈ l₁, c.isGridChunk = true := fun c hc =>
      h c (List.mem_cons.mpr (Or.inr hc))
    cases c with
    | raw s => rw [List.cons_append, cfp_raw, ih hrest]
    | button p => rw [List.cons_append, cfp_button, ih hrest]
    | containerOpen cid => simp [Chunk.isGridChunk] at hc
    | fragment s => simp [Chunk.isGridChunk] at hc

lemma containerIdsOf_eq_nil_of_grid (l : List Chunk)
    (h : ∀ c ∈ l, c.isGridChunk = true) : containerIdsOf l = [] := by
  induction l with
  | nil => rfl
  | cons c l ih =>
    have hc := h c (List.mem_cons_self c l)
    have hrest : ∀ c ∈ l, c.isGridChunk = true := fun c hc =>
      h c (List.mem_cons.mpr (Or.inr hc))
    cases c with
    | raw s => simpa [containerIdsOf] using ih hrest
    | button p => simpa [containerIdsOf] using ih hrest
    | containerOpen cid => simp [Chunk.isGridChunk] at hc
    | fragment s => simp [Chunk.isGridChunk] at hc

lemma fragmentsOf_eq_nil_of_grid (l : List Chunk)
    (h : ∀ c ∈ l, c.isGridChunk = true) : fragmentsOf l = [] := by
  induction l with
  | nil => rfl
  | cons c l ih =>
    have hc := h c (List.mem_cons_self c l)
    have hrest : ∀ c ∈ l, c.isGridChunk = true := fun c hc =>
      h c (List.mem_cons.mpr (Or.inr hc))
    cases c with
    | raw s => simpa [fragmentsOf] using ih hrest
    | button p => simpa [fragmentsOf] using ih hrest
    | containerOpen cid => simp [Chunk.isGridChunk] at hc
    | fragment s => simp [Chunk.isGridChunk] at hc

lemma combinedHeaderChunks_grid :
    ∀ c ∈ combinedHeaderChunks, c.isGridChunk = true := by
  intro c hc
  simp only [combinedHeaderChunks, List.mem_cons, List.not_mem_nil, or_false] at hc
  rcases hc with rfl | rfl | rfl | rfl <;> rfl

lemma paddingChunks_grid (n : ℕ) :
    ∀ c ∈ paddingChunks n, c.isGridChunk = true := by
  intro c hc
  simp only [paddingChunks, List.mem_flatten, List.mem_replicate] at hc
  obtain ⟨l, ⟨-, rfl⟩, hcl⟩ := hc
  simp only [List.mem_cons, List.not_mem_nil, or_false] at hcl
  rcases hcl with rfl | rfl <;> rfl

/-- Successful button-grid loop: when `data_p` is long enough it emits only
grid chunks, whose button targets are the `data_p` slice's plot names, and
binds `current_col` exactly when the loop ran. -/
lemma buttonLoop_ok (ds dp : List (String × ℚ × ℚ)) (i : ℕ)
    (h : i + ds.length ≤ dp.length) :
    ∃ chunks col, buttonLoop dp ds i = Except.ok (chunks, col) ∧
      (∀ c ∈ chunks, c.isGridChunk = true) ∧
      buttonTargetsOf chunks = ((dp.drop i).take ds.length).map (fun p => p.1) ∧
      (ds = [] → chunks = [] ∧ col = none) ∧
      (ds ≠ [] → ∃ cc, col = some cc) := by
  induction ds generalizing i with
  | nil =>
    exact ⟨[], none, rfl, by simp, by simp [buttonTargetsOf], fun _ => ⟨rfl, rfl⟩,
      fun hne => absurd rfl hne⟩
  | cons d rest ih =>
    have hi : i < dp.length := by
      simp only [List.length_cons] at h; omega
    have h1 : pyIndex dp i = Except.ok dp[i] := by
      simp [pyIndex, List.getElem?_eq_getElem hi]
    obtain ⟨restChunks, restCol, hrest, hgrid, htargets, -, -⟩ :=
      ih (i + 1) (by simp only [List.length_cons] at h; omega)
    refine ⟨(if i % 5 = 0 then [Chunk.raw ("      <div class=\"row\">" ++ "\n")] else [])
        ++ [Chunk.raw ("        <div class=\"col-sm\">" ++ "\n"),
            Chunk.button (dp[i]).1,
            Chunk.raw "        </div>"]
        ++ (if i % 5 = 4 then [Chunk.raw ("      </div>" ++ "\n")] else [])
        ++ restChunks,
      some (restCol.getD (i % 5)), ?_, ?_, ?_, ?_, ?_⟩
    · rw [buttonLoop, h1, hrest]
    · intro c hc
      simp only [List.append_assoc, List.mem_append] at hc
      rcases hc with hc | hc | hc | hc
      · rw [mem_ite_raw hc]; rfl
      · simp only [List.mem_cons, List.not_mem_nil, or_false] at hc
        rcases hc with rfl | rfl | rfl <;> rfl
      · rw [mem_ite_raw hc]; rfl
      · exact hgrid c hc
    · rw [List.drop_eq_getElem_cons hi]
      simp only [List.length_cons, List.take_succ_cons, List.map_cons]
      simp only [List.append_assoc, buttonTargetsOf, List.filterMap_append]
      rw [show (List.filterMap _ (if i % 5 = 0
            then [Chunk.raw ("      <div class=\"row\">" ++ "\n")] else []) : List String)
          = [] from buttonTargetsOf_ite_raw _ _,
        show (List.filterMap _ (if i % 5 = 4
            then [Chunk.raw ("      </div>" ++ "\n")] else []) : List String)
          = [] from buttonTargetsOf_ite_raw _ _]
      simpa using htargets
    · intro hne; exact absurd hne (List.cons_ne_nil d rest)
    · intro _; exact ⟨restCol.getD (i % 5), rfl⟩

/-- Successful container loop: when the fragment list is long enough, the
emitted containers are identified by the channel names of `data_s` in
order, each directly wrapping the corresponding fragment with `px`
replaced by `%`. -/
lemma containerLoop_ok (ds : List (String × ℚ × ℚ)) (frags : List String)
    (i : ℕ) (h : i + ds.length ≤ frags.length) :
    ∃ chunks, containerLoop frags ds i = Except.ok chunks ∧
      containerIdsOf chunks = ds.map (fun d => d.1) ∧
      fragmentsOf chunks =
        ((frags.drop i).take ds.length).map (fun s => pyReplace s "px" "%") ∧
      buttonTargetsOf chunks = [] ∧
      ∀ tail, containerFragmentPairs (chunks ++ tail) =
        (ds.map (fun d => d.1)).zip
            (((frags.drop i).take ds.length).map (fun s => pyReplace s "px" "%"))
          ++ containerFragmentPairs tail := by
  induction ds generalizing i with
  | nil =>
    exact ⟨[], rfl, rfl, by simp [fragmentsOf], rfl, fun tail => by simp⟩
  | cons d rest ih =>
    have hi : i < frags.length := by
      simp only [List.length_cons] at h; omega
    have h1 : pyIndex frags i = Except.ok frags[i] := by
      simp [pyIndex, List.getElem?_eq_getElem hi]
    obtain ⟨restChunks, hrest, hids, hfrags, hbt, hpairs⟩ :=
      ih (i + 1) (by simp only [List.length_cons] at h; omega)
    refine ⟨[Chunk.raw ("        <div class=\"col-sm\" style=\"padding: 0px; height: 500px;\">" ++ "\n"),
        Chunk.containerOpen d.1,
        Chunk.fragment (pyReplace (frags[i]) "px" "%"),
        Chunk.raw ("          </div>" ++ "\n")] ++ restChunks,
      ?_, ?_, ?_, ?_, ?_⟩
    · rw [containerLoop, h1, hrest]
    · simp only [containerIdsOf, List.filterMap_append] at hids ⊢
      simpa using hids
    · rw [List.drop_eq_getElem_cons hi]
      simp only [List.length_cons, List.take_succ_cons, List.map_cons]
      simp only [fragmentsOf, List.filterMap_append] at hfrags ⊢
      simpa using hfrags
    · simp only [buttonTargetsOf, List.filterMap_append] at hbt ⊢
      simpa using hbt
    · intro tail
      rw [List.drop_eq_getElem_cons hi]
      simp only [List.cons_append, List.nil_append, cfp_raw]
      rw [containerFragmentPairs]
      simp only [cfp_raw, List.nil_append]
      rw [hpairs tail]
      simp only [List.length_cons, List.take_succ_cons, List.map_cons,
        List.zip_cons_cons, List.cons_append]

lemma buttonTargetsOf_padding (n : ℕ) :
    buttonTargetsOf (paddingChunks n) = [] := by
  unfold paddingChunks
  generalize 4 - n = m
  induction m with
  | zero => rfl
  | succ m ih =>
    simp only [List.replicate_succ, List.flatten_cons, buttonTargetsOf,
      List.filterMap_append] at ih ⊢
    simpa using ih

/-- Success and structural content of the whole combined-summary body for a
call with index-aligned argument lists. -/
lemma exportCombinedSummaryBody_ok
    (results : List (String × ℚ × ℚ)) (plotList : List String)
    (relativeNorm maxNorm : List ℚ) (div_string_mat : List String)
    (hpl : plotList.length = results.length)
    (hrel : relativeNorm.length = plotList.length)
    (hmax : maxNorm.length = plotList.length)
    (hfrag : div_string_mat.length = results.length)
    (hne : results ≠ []) :
    ∃ chunks, exportCombinedSummaryBody results plotList relativeNorm maxNorm
        div_string_mat = Except.ok chunks ∧
      buttonTargetsOf chunks = plotList ∧
      containerIdsOf chunks = results.map (fun r => r.1) ∧
      fragmentsOf chunks = div_string_mat.map (fun s => pyReplace s "px" "%") ∧
      containerFragmentPairs chunks =
        (results.map fun r => r.1).zip
          (div_string_mat.map fun s => pyReplace s "px" "%") := by
  have hdpl : (plotList.zip (relativeNorm.zip maxNorm)).length = results.length := by
    simp [List.length_zip, hrel, hmax, hpl]
  have hdt := dataTriples_ok plotList relativeNorm maxNorm 0
    (by omega) (by omega)
  rw [List.drop_zero, List.drop_zero] at hdt
  obtain ⟨bChunks, col, hbl, hbgrid, hbtargets, -, hbsome⟩ :=
    buttonLoop_ok results (plotList.zip (relativeNorm.zip maxNorm)) 0
      (by omega)
  obtain ⟨cc, rfl⟩ := hbsome hne
  obtain ⟨cChunks, hcl, hcids, hcfrags, hcbt, hcpairs⟩ :=
    containerLoop_ok results div_string_mat 0 (by omega)
  have htake : (div_string_mat.drop 0).take results.length = div_string_mat := by
    rw [List.drop_zero]
    exact List.take_of_length_le (le_of_eq hfrag)
  have hbtargets' : buttonTargetsOf bChunks = plotList := by
    rw [hbtargets, List.drop_zero]
    have : (plotList.zip (relativeNorm.zip maxNorm)).take results.length
        = plotList.zip (relativeNorm.zip maxNorm) :=
      List.take_of_length_le (le_of_eq hdpl)
    rw [this]
    exact List.map_fst_zip _ _ (by simp [List.length_zip, hrel, hmax])
  refine ⟨combinedHeaderChunks ++ bChunks ++ paddingChunks cc
      ++ [Chunk.raw ("    </div>" ++ "\n"), Chunk.raw ("  <br>" ++ "\n")]
      ++ cChunks ++ [Chunk.raw ("  </div>" ++ "\n")], ?_, ?_, ?_, ?_, ?_⟩
  · simp only [exportCombinedSummaryBody, hdt, hbl, hcl]
  · simp only [buttonTargetsOf, List.filterMap_append] at hbtargets' hcbt ⊢
    simp [hbtargets', hcbt,
      show (List.filterMap _ (paddingChunks cc) : List String) = []
        from buttonTargetsOf_padding cc,
      buttonTargetsOf, combinedHeaderChunks]
  · have hpadids : containerIdsOf (paddingChunks cc) = [] :=
      containerIdsOf_eq_nil_of_grid _ (paddingChunks_grid cc)
    have hheadids : containerIdsOf combinedHeaderChunks = [] :=
      containerIdsOf_eq_nil_of_grid _ combinedHeaderChunks_grid
    have hbids : containerIdsOf bChunks = [] :=
      containerIdsOf_eq_nil_of_grid _ hbgrid
    simp only [containerIdsOf,
      List.filterMap_append] at hpadids hheadids hbids hcids ⊢
    simp [hpadids, hheadids, hbids, hcids, containerIdsOf]
  · have hpadfr : fragmentsOf (paddingChunks cc) = [] :=
      fragmentsOf_eq_nil_of_grid _ (paddingChunks_grid cc)
    have hheadfr : fragmentsOf combinedHeaderChunks = [] :=
      fragmentsOf_eq_nil_of_grid _ combinedHeaderChunks_grid
    have hbfr : fragmentsOf bChunks = [] :=
      fragmentsOf_eq_nil_of_grid _ hbgrid
    rw [htake] at hcfrags
    simp only [fragmentsOf,
      List.filterMap_append] at hpadfr hheadfr hbfr hcfrags ⊢
    simp [hpadfr, hheadfr, hbfr, hcfrags, fragmentsOf]
  · rw [htake] at hcpairs
    simp only [List.append_assoc]
    rw [cfp_grid_append _ _ combinedHeaderChunks_grid,
      cfp_grid_append _ _ hbgrid,
      cfp_grid_append _ _ (paddingChunks_grid cc)]
    simp only [List.cons_append, List.nil_append, cfp_raw]
    rw [hcpairs]
    simp [containerFragmentPairs]

/-- C2: in `exportCombinedSummary`, when the fragment list and the record
list `results` have equal length (and the parallel plot/norm lists are
aligned so the call completes), the `i`-th chart fragment is emitted
directly inside the hidden container whose identifier is the channel name
of the `i`-th record, and no fragment is placed under any other channel's
container: the container/fragment pairing is exactly the position-wise zip.
-/
theorem combined_fragment_under_matching_container
    (results : List (String × ℚ × ℚ)) (plotList : List String)
    (relativeNorm maxNorm : List ℚ) (div_string_mat : List String)
    (hpl : plotList.length = results.length)
    (hrel : relativeNorm.length = plotList.length)
    (hmax : maxNorm.length = plotList.length)
    (hfrag : div_string_mat.length = results.length)
    (hne : results ≠ []) :
    ∃ chunks, exportCombinedSummaryBody results plotList relativeNorm maxNorm
        div_string_mat = Except.ok chunks ∧
      containerFragmentPairs chunks =
        (results.map fun r => r.1).zip
          (div_string_mat.map fun s => pyReplace s "px" "%") := by
  obtain ⟨chunks, hok, -, -, -, hpairs⟩ :=
    exportCombinedSummaryBody_ok results plotList relativeNorm maxNorm
      div_string_mat hpl hrel hmax hfrag hne
  exact ⟨chunks, hok, hpairs⟩

/-- Witness for C2: selected channels `A` and `C` with two pre-rendered
fragments place fragment 0 under `A` and fragment 1 under `C`. -/
theorem combined_fragment_under_matching_container_witness :
    ∃ chunks, exportCombinedSummaryBody [("A", 1, 2), ("C", 3, 4)]
        ["A", "C"] [1, 3] [2, 4] ["<div>fragA</div>", "<div>fragC</div>"]
        = Except.ok chunks ∧
      containerFragmentPairs chunks =
        (([("A", 1, 2), ("C", 3, 4)] : List (String × ℚ × ℚ)).map
            fun r => r.1).zip
          ((["<div>fragA</div>", "<div>fragC</div>"] : List String).map
            fun s => pyReplace s "px" "%") :=
  combined_fragment_under_matching_container
    [("A", 1, 2), ("C", 3, 4)] ["A", "C"] [1, 3] [2, 4]
    ["<div>fragA</div>", "<div>fragC</div>"]
    (by decide) (by decide) (by decide) (by decide) (by decide)

/-- C9: `exportCombinedSummary` does not embed chart fragments verbatim:
the fragments written into the report are exactly the input fragments with
every occurrence of `px` replaced by `%` (line 376). -/
theorem combined_fragment_px_replaced
    (results : List (String × ℚ × ℚ)) (plotList : List String)
    (relativeNorm maxNorm : List ℚ) (div_string_mat : List String)
    (hpl : plotList.length = results.length)
    (hrel : relativeNorm.length = plotList.length)
    (hmax : maxNorm.length = plotList.length)
    (hfrag : div_string_mat.length = results.length)
    (hne : results ≠ []) :
    ∃ chunks, exportCombinedSummaryBody results plotList relativeNorm maxNorm
        div_string_mat = Except.ok chunks ∧
      fragmentsOf chunks = div_string_mat.map fun s => pyReplace s "px" "%" := by
  obtain ⟨chunks, hok, -, -, hfrags, -⟩ :=
    exportCombinedSummaryBody_ok results plotList relativeNorm maxNorm
      div_string_mat hpl hrel hmax hfrag hne
  exact ⟨chunks, hok, hfrags⟩

/-- Witness for C9: a fragment containing `px` (in a style width and in
text) is emitted altered, with both occurrences turned into `%`. -/
theorem combined_fragment_px_replaced_witness :
    (∃ chunks, exportCombinedSummaryBody [("A", 1, 2)] ["A"] [1] [2]
        ["<div style=\"width:100px\">px</div>"] = Except.ok chunks ∧
      fragmentsOf chunks =
        (["<div style=\"width:100px\">px</div>"] : List String).map
          fun s => pyReplace s "px" "%")
    ∧ (["<div style=\"width:100px\">px</div>"] : List String).map
        (fun s => pyReplace s "px" "%")
      = ["<div style=\"width:100%\">%</div>"] :=
  ⟨combined_fragment_px_replaced [("A", 1, 2)] ["A"] [1] [2]
      ["<div style=\"width:100px\">px</div>"]
      (by decide) (by decide) (by decide) (by decide) (by decide),
    by decide⟩

/-- C5 (amended): the expand/collapse controls of `exportCombinedSummary`
are collapse-toggle buttons, not checkboxes; one button is emitted per
`results` record, reading its label from `plotList` at the same index, so
the number of hidden chart containers equals the number of buttons; button
`i` targets `plotList[i]` while container `i` is identified by the channel
name of `results[i]`, so when `plotList` is exactly the channel-name list
of `results` and the names are distinct, each button's target matches
exactly one container identifier. -/
theorem combined_buttons_match_containers
    (results : List (String × ℚ × ℚ))
    (relativeNorm maxNorm : List ℚ) (div_string_mat : List String)
    (hrel : relativeNorm.length = results.length)
    (hmax : maxNorm.length = results.length)
    (hfrag : div_string_mat.length = results.length)
    (hne : results ≠ [])
    (hnd : (results.map fun r => r.1).Nodup) :
    ∃ chunks, exportCombinedSummaryBody results (results.map fun r => r.1)
        relativeNorm maxNorm div_string_mat = Except.ok chunks ∧
      (buttonTargetsOf chunks).length = (containerIdsOf chunks).length ∧
      buttonTargetsOf chunks = containerIdsOf chunks ∧
      ∀ t ∈ buttonTargetsOf chunks, (containerIdsOf chunks).count t = 1 := by
  obtain ⟨chunks, hok, htargets, hids, -, -⟩ :=
    exportCombinedSummaryBody_ok results (results.map fun r => r.1)
      relativeNorm maxNorm div_string_mat (by simp)
      (by simpa using hrel) (by simpa using hmax) hfrag hne
  refine ⟨chunks, hok, ?_, ?_, ?_⟩
  · rw [htargets, hids]
  · rw [htargets, hids]
  · intro t ht
    rw [hids]
    rw [htargets] at ht
    exact List.count_eq_one_of_mem hnd ht

/-- Witness for C5's amended statement at two distinct channels. -/
theorem combined_buttons_match_containers_witness :
    ∃ chunks, exportCombinedSummaryBody [("A", 1, 2), ("B", 3, 4)]
        (([("A", 1, 2), ("B", 3, 4)] : List (String × ℚ × ℚ)).map fun r => r.1)
        [1, 3] [2, 4] ["fA", "fB"] = Except.ok chunks ∧
      (buttonTargetsOf chunks).length = (containerIdsOf chunks).length ∧
      buttonTargetsOf chunks = containerIdsOf chunks ∧
      ∀ t ∈ buttonTargetsOf chunks, (containerIdsOf chunks).count t = 1 :=
  combined_buttons_match_containers [("A", 1, 2), ("B", 3, 4)] [1, 3] [2, 4]
    ["fA", "fB"] (by decide) (by decide) (by decide) (by decide) (by decide)

set_option maxRecDepth 100000 in
/-- Counterexample to C5 as stated: the combined report for one channel
emits one hidden chart container but zero checkbox controls (the string
`checkbox` never occurs in the rendered body), so the emitted checkbox
count does not equal the container count. -/
theorem combined_checkbox_counterexample :
    (exportCombinedSummaryBody [("ChannelA", 1, 2)] ["ChannelA"] [1] [2]
        ["<div>chart</div>"]).toOption.map
      (fun chunks => ((containerIdsOf chunks).length,
        occurrences (renderChunks chunks) "checkbox"))
      = some (1, 0) ∧ (1 : ℕ) ≠ 0 := by
  constructor
  · rfl
  · decide

/-- Counterexample to C7 as stated: the norm value `1.23456` is rendered by
the summary builders as `1.2346e+00`, whose mantissa carries five
significant digits, not four (`'{0:0.4e}'` formats with four digits after
the decimal point, i.e. five significant digits). -/
theorem fmtE4_five_sig_digits_counterexample :
    exportCaseSummaryRows [("GenPwr", 3858/3125, 3858/3125)] =
      Except.ok [{ channel := "GenPwr",
                   relCell := Cell.styled "cell-highlight" "1.2346e+00",
                   maxCell := Cell.styled "cell-highlight" "1.2346e+00" }] ∧
    mantissaDigitCount "1.2346e+00" = 5 ∧
    ¬ mantissaDigitCount "1.2346e+00" = 4 := by
  refine ⟨by rfl, by decide, by decide⟩

lemma digitChar_mod_isDigit (m : ℕ) :
    (Nat.digitChar (m % 10)).isDigit = true := by
  have h : m % 10 < 10 := Nat.mod_lt _ (by norm_num)
  have hall : ∀ k, k < 10 → (Nat.digitChar k).isDigit = true := by decide
  exact hall _ h

lemma sciString_exists_shape (sign : String) (n : ℕ) (expo : String)
    (hs : sign = "" ∨ sign = "-") :
    ∃ (sign' : String) (c0 c1 c2 c3 c4 : Char) (expo' : String),
      sciString sign n expo = sign' ++ String.singleton c0 ++ "." ++
        String.mk [c1, c2, c3, c4] ++ "e" ++ expo' ∧
      (sign' = "" ∨ sign' = "-") ∧
      c0.isDigit = true ∧ c1.isDigit = true ∧ c2.isDigit = true ∧
      c3.isDigit = true ∧ c4.isDigit = true :=
  ⟨sign, Nat.digitChar (n / 10000 % 10),
    Nat.digitChar (n % 10000 / 1000 % 10), Nat.digitChar (n % 10000 / 100 % 10),
    Nat.digitChar (n % 10000 / 10 % 10), Nat.digitChar (n % 10000 % 10),
    expo, rfl, hs,
    digitChar_mod_isDigit _, digitChar_mod_isDigit _, digitChar_mod_isDigit _,
    digitChar_mod_isDigit _, digitChar_mod_isDigit _⟩

/-- C7 (amended): every numeric norm cell of the two summary builders is
rendered by the `'{0:0.4e}'` format, i.e. scientific notation with one
leading digit and exactly four digits after the decimal point (five
significant digits in the mantissa), for every input value. -/
theorem fmtE4_four_digits_after_point :
    (∀ (d : String × ℚ × ℚ) (mr mm : ℚ),
      ((normRow d mr mm).relCell).content = fmtE4 d.2.1 ∧
      ((normRow d mr mm).maxCell).content = fmtE4 d.2.2)
    ∧ ∀ q : ℚ, ∃ (sign : String) (c0 c1 c2 c3 c4 : Char) (expo : String),
        fmtE4 q = sign ++ String.singleton c0 ++ "." ++
          String.mk [c1, c2, c3, c4] ++ "e" ++ expo ∧
        (sign = "" ∨ sign = "-") ∧
        c0.isDigit = true ∧ c1.isDigit = true ∧ c2.isDigit = true ∧
        c3.isDigit = true ∧ c4.isDigit = true := by
  constructor
  · intro d mr mm
    constructor
    · by_cases h : d.2.1 = mr <;> simp [normRow, Cell.content, h]
    · by_cases h : d.2.2 = mm <;> simp [normRow, Cell.content, h]
  · intro q
    by_cases hq : q = 0
    · simp only [fmtE4, if_pos hq]
      exact sciString_exists_shape _ _ _ (Or.inl rfl)
    · simp only [fmtE4, if_neg hq]
      exact sciString_exists_shape _ _ _
        (by by_cases hneg : q < 0 <;> simp [hneg])

/-! ## Validation of the executable models against Python behaviour -/

example : fmtE4 0 = "0.0000e+00" := by decide
example : fmtE4 (27/8) = "3.3750e+00" := by decide
example : fmtE4 (-27/8) = "-3.3750e+00" := by decide
example : fmtE4 (1/812) = "1.2315e-03" := by decide
example : fmtE4 (2499999/25) = "1.0000e+05" := by decide
example : fmtE4 (1/2) = "5.0000e-01" := by decide
example : fmtE4 (3858/3125) = "1.2346e+00" := by decide
example : fmtE4 (9/200) = "4.5000e-02" := by decide
set_option maxRecDepth 8000 in
example : fmtE4 (10 ^ 100) = "1.0000e+100" := by decide

example : pyReplace "width:100px" "px" "%" = "width:100%" := by decide
example : pyReplace "aaa" "aa" "b" = "ba" := by decide
example : pyReplace "pxpx" "px" "%" = "%%" := by decide
example : pyReplace "nothing here" "px" "%" = "nothing here" := by decide

example : labelCell "FAIL" = Cell.styled "cell-warning" "FAIL" := by decide
example : labelCell "fail" = Cell.plain "fail" := by decide
example : labelCell "FAILED" = Cell.plain "FAILED" := by decide
example : labelCell "FAIL " = Cell.plain "FAIL " := by decide

example :
    renderCell (Cell.styled "cell-highlight" "4.5000e-02") =
      "          <td class=\"cell-highlight\">4.5000e-02</td>\n" := by decide
